import Mathlib

/-!
# Shallow embedding of `src/MSO4102B.py`

This file embeds the oscilloscope DAQ client `MSO4102B.py` in Lean 4 and
proves the specified properties of its parsing and scaling routines.

Modelling conventions:
* Python `float` values are modelled as exact rationals (`ℚ`); the claims
  proved here are about the algebraic content of the code, not IEEE-754
  rounding.
* Python strings are Lean `String`s; `str.split`, `str.rstrip` and friends
  are re-implemented over `List Char` with Python semantics (in particular
  `"".split(',') = ['']` and `split(sep, 1)` splits at the first
  occurrence only).
* A Python `dict` built by successive `d[k] = v` assignments is an
  insertion-ordered association list with overwrite-in-place semantics,
  matching CPython's ordered dicts.
* Fallible code returns `Except PyErr`; the constructors of `PyErr` mirror
  the exceptions the interpreter actually raises (`KeyError`,
  `ValueError` from `float()`, `ValueError` from tuple unpacking,
  `NameError`, `IndexError`), each carrying the data its CPython message
  carries.
* The instrument session (`self.query`) is an oracle `String → String`
  passed explicitly; methods that query the instrument take it as an
  argument.
-/

deriving instance DecidableEq for Except

namespace MSO4102B

/-! ## Python string primitives -/

/-- Python `s.split(sep)` for a one-character separator, on `List Char`:
keeps empty fields, and the empty string splits to `[""]`. -/
def splitOnChar (sep : Char) : List Char → List (List Char)
  | [] => [[]]
  | c :: cs =>
    let r := splitOnChar sep cs
    if c = sep then [] :: r
    else
      match r with
      | [] => [[c]]
      | h :: t => (c :: h) :: t

/-- Split at the first occurrence of `sep`, if any: the engine of Python
`s.split(sep, 1)`. -/
def splitFirstChar (sep : Char) : List Char → Option (List Char × List Char)
  | [] => none
  | c :: cs =>
    if c = sep then some ([], cs)
    else (splitFirstChar sep cs).map (fun p => (c :: p.1, p.2))

/-- Python `s.rstrip('\n')` on `List Char`. -/
def rstripNl (cs : List Char) : List Char :=
  (cs.reverse.dropWhile (fun c => c = '\n')).reverse

/-- Python `s.split(sep)` for a one-character separator, on `String`. -/
def pySplit (s : String) (sep : Char) : List String :=
  (splitOnChar sep s.toList).map (fun cs => ⟨cs⟩)

/-- Python `s.split(sep, 1)` on `String`: a list of one or two pieces. -/
def pySplit1 (s : String) (sep : Char) : List String :=
  match splitFirstChar sep s.toList with
  | none => [s]
  | some p => [⟨p.1⟩, ⟨p.2⟩]

/-- Python `s.rstrip('\n')` on `String`. -/
def pyRstrip (s : String) : String := ⟨rstripNl s.toList⟩

/-! ## Python `float()` literal parsing, valued in `ℚ`

Models CPython `float(str)` on finite decimal and scientific literals:
an optional sign, then digits with an optional fractional part and an
optional exponent. (`inf`/`nan`, embedded underscores and surrounding
whitespace — which CPython also accepts — are outside this model; no
string appearing in the repository or the spec uses them.) -/

/-- Numeric value of a digit string. -/
def digitsVal (cs : List Char) : Nat :=
  cs.foldl (fun a c => 10 * a + (c.toNat - 48)) 0

/-- Exact value of a parsed float literal: a signed digit string and a
power of ten, kept in `Int`/`Nat` form so that parsing stays
kernel-computable; `val` interprets it in `ℚ`. -/
structure PyFloatVal : Type where
  num : Int
  exp10 : Int
deriving DecidableEq, Repr

/-- The rational value `num * 10 ^ exp10` of a parsed literal. -/
def PyFloatVal.val (r : PyFloatVal) : ℚ :=
  (r.num : ℚ) * (10 : ℚ) ^ r.exp10

/-- Parse the exponent suffix of a float literal: an optional sign and a
nonempty digit string; returns the exponent as an `Int`. -/
def parseExp (cs : List Char) : Option Int :=
  let p : Bool × List Char :=
    match cs with
    | '+' :: t => (true, t)
    | '-' :: t => (false, t)
    | t => (true, t)
  if p.2.isEmpty ∨ ¬ (p.2.all Char.isDigit) then none
  else if p.1 then some ((digitsVal p.2 : Int))
  else some (-(digitsVal p.2 : Int))

/-- Parse an unsigned float literal `digits [. digits] [e exp]` (at least
one digit before or after the point). -/
def parseUnsignedFloat (cs : List Char) : Option PyFloatVal :=
  let ip := cs.takeWhile Char.isDigit
  let rest := cs.dropWhile Char.isDigit
  match rest with
  | [] => if ip.isEmpty then none else some ⟨(digitsVal ip : Int), 0⟩
  | '.' :: rest2 =>
    let fp := rest2.takeWhile Char.isDigit
    let rest3 := rest2.dropWhile Char.isDigit
    if ip.isEmpty ∧ fp.isEmpty then none
    else
      match rest3 with
      | [] => some ⟨(digitsVal (ip ++ fp) : Int), -(fp.length : Int)⟩
      | e :: rest4 =>
        if e = 'e' ∨ e = 'E' then
          (parseExp rest4).map
            (fun ex => ⟨(digitsVal (ip ++ fp) : Int), ex - (fp.length : Int)⟩)
        else none
  | e :: rest2 =>
    if e = 'e' ∨ e = 'E' then
      if ip.isEmpty then none
      else (parseExp rest2).map (fun ex => ⟨(digitsVal ip : Int), ex⟩)
    else none

/-- CPython `float(s)` in exact representation. -/
def pyFloatRep? (s : String) : Option PyFloatVal :=
  match s.toList with
  | '-' :: t => (parseUnsignedFloat t).map (fun r => ⟨-r.num, r.exp10⟩)
  | '+' :: t => parseUnsignedFloat t
  | t => parseUnsignedFloat t

/-- CPython `float(s)` as a partial function into `ℚ`. -/
def pyFloat? (s : String) : Option ℚ :=
  (pyFloatRep? s).map PyFloatVal.val

/-! ## Exceptions -/

/-- The exceptions the embedded code can raise, carrying the data the
CPython exception message carries. -/
inductive PyErr : Type where
  /-- `KeyError: <key>` from a failed `dict[key]` lookup. -/
  | keyError (key : String)
  /-- `ValueError: could not convert string to float: <text>` from
  `float(text)` (and from `np.array(..., dtype=float)`). -/
  | floatValueError (text : String)
  /-- `ValueError: not enough values to unpack (expected 2, got 1)` from
  `key, val = parameter.split(' ', 1)`; its message is fixed text. -/
  | unpackError
  /-- `NameError: name <name> is not defined`. -/
  | nameError (nm : String)
  /-- `IndexError` from `s[-1]` on an empty string. -/
  | indexError
deriving DecidableEq, Repr

/-- The text payload of each exception message, used to formalise
"the error names X": `X` is named iff it occurs inside the message. -/
def errMessage : PyErr → String
  | .keyError k => k
  | .floatValueError t => "could not convert string to float: " ++ t
  | .unpackError => "not enough values to unpack (expected 2, got 1)"
  | .nameError n => "name " ++ n ++ " is not defined"
  | .indexError => "string index out of range"

/-- `e` names `s` when `s` occurs verbatim inside the exception message. -/
def errNames (e : PyErr) (s : String) : Prop :=
  s.toList <:+: (errMessage e).toList

instance (e : PyErr) (s : String) : Decidable (errNames e s) := by
  unfold errNames; infer_instance

/-! ## Python dicts as insertion-ordered association lists -/

/-- `d[k] = v` on an insertion-ordered dict: overwrite in place if the key
exists, else append. -/
def dictInsert (d : List (String × String)) (k v : String) :
    List (String × String) :=
  if (d.lookup k).isSome then d.map (fun p => if p.1 = k then (k, v) else p)
  else d ++ [(k, v)]

/-! ## `Scope.scale_data` (src/MSO4102B.py lines 107–124)

```python
def scale_data(scaling_dict, curve):
    x_zero = float(scaling_dict['XZERO'])
    x_incr = float(scaling_dict['XINCR'])
    y_zero = float(scaling_dict['YZERO'])
    y_mult = float(scaling_dict['YMULT'])
    y_offset = float(scaling_dict['YOFF'])
    x_points = np.empty(len(curve))
    for i in range(len(curve)):
        x_points[i] = x_zero + x_incr * i
    y_points = (curve - y_offset) * y_mult + y_zero
    return x_points, y_points
```
-/

/-- `float(scaling_dict[k])`: `KeyError` on a missing key, `ValueError`
(naming the value text) when `float()` cannot parse the value. -/
def getFloat (d : List (String × String)) (k : String) : Except PyErr ℚ :=
  match d.lookup k with
  | none => .error (.keyError k)
  | some v =>
    match pyFloat? v with
    | none => .error (.floatValueError v)
    | some q => .ok q

/-- `Scope.scale_data`. The `np.empty`-then-fill loop builds the list of
`x_zero + x_incr * i` for `i < len(curve)`; the numpy broadcast
`(curve - y_offset) * y_mult + y_zero` maps over the samples. -/
def scale_data (scaling_dict : List (String × String)) (curve : List ℚ) :
    Except PyErr (List ℚ × List ℚ) := do
  let x_zero ← getFloat scaling_dict "XZERO"
  let x_incr ← getFloat scaling_dict "XINCR"
  let y_zero ← getFloat scaling_dict "YZERO"
  let y_mult ← getFloat scaling_dict "YMULT"
  let y_offset ← getFloat scaling_dict "YOFF"
  let x_points := (List.range curve.length).map (fun i : ℕ => x_zero + x_incr * (i : ℚ))
  let y_points := curve.map (fun y => (y - y_offset) * y_mult + y_zero)
  return (x_points, y_points)

/-! ## `Scope.read_config` (src/MSO4102B.py lines 33–46)

```python
def read_config(self, verbose=False):
    command = ':WFMO?'
    config = self.query(command)
    config_dict = {}
    for parameter in config.split(';'):
        key, val = parameter.split(' ', 1)
        config_dict[key] = val
        if verbose:
            print(...)
```
Note: the reply is **not** `rstrip`-ped, and the function body ends with
no `return` statement, so the built dict is discarded and Python returns
`None`. -/

/-- One loop iteration: `key, val = parameter.split(' ', 1)` followed by
`config_dict[key] = val`. Unpacking a 1-element split raises
`ValueError: not enough values to unpack (expected 2, got 1)`. -/
def read_config_step (d : List (String × String)) (parameter : String) :
    Except PyErr (List (String × String)) :=
  match splitFirstChar ' ' parameter.toList with
  | none => .error .unpackError
  | some p => .ok (dictInsert d ⟨p.1⟩ ⟨p.2⟩)

/-- The dict built by `read_config`'s loop from the raw reply text (the
value of `config_dict` when the loop finishes). -/
def read_config_pairs (config : String) :
    Except PyErr (List (String × String)) :=
  (pySplit config ';').foldlM read_config_step []

/-- `Scope.read_config` as a function of the instrument reply: runs the
loop and then — the source has no `return` — returns Python `None`,
modelled as `Option.none`. -/
def read_config (config : String) :
    Except PyErr (Option (List (String × String))) := do
  let _ ← read_config_pairs config
  return none

/-! ## `Scope.read_trace` (src/MSO4102B.py lines 126–133)

```python
def read_trace(self):
    curve = np.array(self.query("CURVE?").rstrip('\n').split(' ', 1)[-1].split(','),
                     dtype=float)
    return curve
```
-/

/-- `float(token)` as `np.array(..., dtype=float)` applies it: a
`ValueError` naming the token on failure. -/
def parseFloatToken (t : String) : Except PyErr ℚ :=
  match pyFloat? t with
  | none => .error (.floatValueError t)
  | some q => .ok q

/-- `Scope.read_trace` as a function of the `CURVE?` reply. `split(' ', 1)[-1]`
is the last element of a 1- or 2-element list (the whole string when it
holds no space). -/
def read_trace (reply : String) : Except PyErr (List ℚ) :=
  (pySplit ((pySplit1 (pyRstrip reply) ' ').getLastD "") ',').mapM parseFloatToken

/-! ## `Scope.ask` (src/MSO4102B.py lines 26–31)

```python
def ask(self, question):
    if question[-1] != "?":
        question += "?"
    response = self.query(question).rstrip('\n')
    print(...)
    return response
```
-/

/-- Lines 27–28: `question[-1]` raises `IndexError` on the empty string,
otherwise `"?"` is appended exactly when the last character is not `?`. -/
def ask_question (question : String) : Except PyErr String :=
  match question.toList.getLast? with
  | none => .error .indexError
  | some c => .ok (if c ≠ '?' then question ++ "?" else question)

/-- `Scope.ask`, with the instrument session as a `query` oracle. -/
def ask (query : String → String) (question : String) : Except PyErr String := do
  let q ← ask_question question
  return pyRstrip (query q)

/-! ## `Scope.get_source_channel` and `Scope.read_scaling_config`
(src/MSO4102B.py lines 57–67 and 75–105) -/

/-- `Scope.get_source_channel`: splits the `:DATA:SOURCE?` reply on spaces
and converts the last character of the last token with `int(...)`. -/
def get_source_channel (query : String → String) : Except PyErr Int :=
  let channel := pySplit (pyRstrip (query ":DATA:SOURCE?")) ' '
  match (channel.getLastD "").toList.getLast? with
  | none => .error .indexError
  | some c =>
    if c.isDigit then .ok ((c.toNat - 48 : Nat) : Int)
    else .error (.floatValueError (String.singleton c))

/-- The names bound at module level in `MSO4102B.py`: the two imports, the
`VISA_RM` assignment, the module-level `def`, and the `class` statement.
`get_source_channel` is only a method of `Scope`, not a module global. -/
def moduleGlobals : List String :=
  ["np", "visa", "VISA_RM", "connect_to_ethernet_device", "Scope"]

/-- Python global-name resolution for a name that is not a local and not a
builtin: defined iff the module binds it. -/
def lookupGlobal (nm : String) : Option String :=
  if moduleGlobals.contains nm then some nm else none

/-- The command list of `read_scaling_config` (lines 82–91). -/
def command_list : List String :=
  ["NR_PT?", "XUNIT?", "XZERO?", "XINCR?", "YUNIT?", "YZERO?", "YMULT?", "YOFF?"]

/-- `val.rstrip('\n').split(' ')[-1]`: the last space-delimited token of a
trimmed reply (line 97 / line 100). -/
def lastSpaceTok (s : String) : String :=
  (pySplit (pyRstrip s) ' ').getLastD ""

/-- Lines 81–105 of `read_scaling_config`, as they would run after a
successful channel lookup: queries each calibration field and keeps the
last token of each reply, then adds `channel` and `record_length`.
(The source stores the channel as an `int` value in a str-valued dict;
it is rendered as text here.) -/
def read_scaling_config_rest (query : String → String) (channel : Int) :
    List (String × String) :=
  let d := command_list.foldl
    (fun d cmd =>
      dictInsert d (cmd.dropRight 1) (lastSpaceTok (query (":WFMOutpre:" ++ cmd))))
    []
  let d := dictInsert d "channel" (toString channel)
  dictInsert d "record_length" (lastSpaceTok (query "HORizontal:RECOrdlength?"))

/-- `Scope.read_scaling_config`: its first statement is
`channel = get_source_channel(self, verbose)`, where `get_source_channel`
is resolved as a free (global) name. The module does not bind that name,
so the call raises `NameError` before any query is issued; the rest of
the body (modelled above) is unreachable. -/
def read_scaling_config (query : String → String) :
    Except PyErr (List (String × String)) :=
  match lookupGlobal "get_source_channel" with
  | none => .error (.nameError "get_source_channel")
  | some _ => do
    let channel ← get_source_channel query
    return read_scaling_config_rest query channel

/-! ## Statement-level store semantics of `scale_data`

To settle the purity claim, `scale_data` is also given a statement-level
embedding over an explicit store of its variables: the two inputs plus
one slot per local the body assigns. Each Python assignment becomes a
store update; mutation of an input — if the body performed any — would
show up as a change to the `scaling_dict` or `curve` field of the final
store. (Python locals are unbound before their first assignment; the `0`
/ `[]` defaults below are never read, since every read in the body occurs
after the corresponding assignment.) -/

structure ScaleStore : Type where
  scaling_dict : List (String × String)
  curve : List ℚ
  x_zero : ℚ := 0
  x_incr : ℚ := 0
  y_zero : ℚ := 0
  y_mult : ℚ := 0
  y_offset : ℚ := 0
  x_points : List ℚ := []
  y_points : List ℚ := []

/-- `x_zero = float(scaling_dict['XZERO'])` (line 112). -/
def stepXZero (s : ScaleStore) : Except PyErr ScaleStore :=
  (getFloat s.scaling_dict "XZERO").map (fun v => { s with x_zero := v })

/-- `x_incr = float(scaling_dict['XINCR'])` (line 113). -/
def stepXIncr (s : ScaleStore) : Except PyErr ScaleStore :=
  (getFloat s.scaling_dict "XINCR").map (fun v => { s with x_incr := v })

/-- `y_zero = float(scaling_dict['YZERO'])` (line 114). -/
def stepYZero (s : ScaleStore) : Except PyErr ScaleStore :=
  (getFloat s.scaling_dict "YZERO").map (fun v => { s with y_zero := v })

/-- `y_mult = float(scaling_dict['YMULT'])` (line 115). -/
def stepYMult (s : ScaleStore) : Except PyErr ScaleStore :=
  (getFloat s.scaling_dict "YMULT").map (fun v => { s with y_mult := v })

/-- `y_offset = float(scaling_dict['YOFF'])` (line 116). -/
def stepYOff (s : ScaleStore) : Except PyErr ScaleStore :=
  (getFloat s.scaling_dict "YOFF").map (fun v => { s with y_offset := v })

/-- Lines 118–120: `x_points = np.empty(len(curve))` and the fill loop. -/
def stepXPoints (s : ScaleStore) : ScaleStore :=
  { s with x_points :=
      (List.range s.curve.length).map (fun i : ℕ => s.x_zero + s.x_incr * (i : ℚ)) }

/-- Line 122: `y_points = (curve - y_offset) * y_mult + y_zero`. -/
def stepYPoints (s : ScaleStore) : ScaleStore :=
  { s with y_points :=
      s.curve.map (fun y => (y - s.y_offset) * s.y_mult + s.y_zero) }

/-- The whole body of `scale_data` over the store: the final store (the
initial one, when an exception abandons the body early) together with the
returned pair. -/
def scale_data_run (s0 : ScaleStore) :
    ScaleStore × Except PyErr (List ℚ × List ℚ) :=
  match stepXZero s0 with
  | .error e => (s0, .error e)
  | .ok s1 =>
    match stepXIncr s1 with
    | .error e => (s1, .error e)
    | .ok s2 =>
      match stepYZero s2 with
      | .error e => (s2, .error e)
      | .ok s3 =>
        match stepYMult s3 with
        | .error e => (s3, .error e)
        | .ok s4 =>
          match stepYOff s4 with
          | .error e => (s4, .error e)
          | .ok s5 =>
            let s6 := stepYPoints (stepXPoints s5)
            (s6, .ok (s6.x_points, s6.y_points))

/-! ## Helper lemmas on the string primitives -/

theorem splitOnChar_of_not_mem {sep : Char} {cs : List Char} (h : sep ∉ cs) :
    splitOnChar sep cs = [cs] := by
  induction cs with
  | nil => rfl
  | cons c t ih =>
    rw [List.mem_cons] at h
    push_neg at h
    simp [splitOnChar, ih h.2, Ne.symm h.1]

theorem splitFirstChar_of_not_mem {sep : Char} {cs : List Char} (h : sep ∉ cs) :
    splitFirstChar sep cs = none := by
  induction cs with
  | nil => rfl
  | cons c t ih =>
    rw [List.mem_cons] at h
    push_neg at h
    simp [splitFirstChar, ih h.2, Ne.symm h.1]

theorem splitFirstChar_isSome {sep : Char} {cs : List Char} (h : sep ∈ cs) :
    (splitFirstChar sep cs).isSome := by
  induction cs with
  | nil => simp at h
  | cons c t ih =>
    by_cases hc : c = sep
    · simp [splitFirstChar, hc]
    · rcases List.mem_cons.mp h with h1 | h2
      · exact absurd h1.symm hc
      · simp only [splitFirstChar, hc, if_false]
        rcases Option.isSome_iff_exists.mp (ih h2) with ⟨p, hp⟩
        simp [hp]

theorem splitFirstChar_append {sep : Char} {a : List Char} (b : List Char)
    (h : sep ∉ a) : splitFirstChar sep (a ++ sep :: b) = some (a, b) := by
  induction a with
  | nil => simp [splitFirstChar]
  | cons c t ih =>
    rw [List.mem_cons] at h
    push_neg at h
    simp [splitFirstChar, Ne.symm h.1, ih h.2]

theorem rstripNl_append_space (a b : List Char) :
    rstripNl (a ++ ' ' :: b) = a ++ ' ' :: rstripNl b := by
  unfold rstripNl
  rw [List.reverse_append, List.reverse_cons, List.append_assoc,
    List.singleton_append, List.dropWhile_append]
  by_cases h : (b.reverse.dropWhile fun c => c = '\n').isEmpty
  · rw [List.isEmpty_iff] at h
    simp [h, List.dropWhile_cons]
  · simp only [h, if_false]
    rw [List.isEmpty_iff] at h
    simp [List.reverse_append]

/-- Reduction of an `Except` bind at an `ok` value (definitional). -/
theorem except_bind_ok {ε α β : Type} (a : α) (f : α → Except ε β) :
    (Except.ok a : Except ε α) >>= f = f a := rfl

/-- `pure` on `Except` is `ok` (definitional). -/
theorem except_pure {ε α : Type} (a : α) :
    (pure a : Except ε α) = Except.ok a := rfl

/-- Reduction of an `Except` bind at an error (definitional). -/
theorem except_bind_error {ε α β : Type} (e : ε) (f : α → Except ε β) :
    (Except.error e : Except ε α) >>= f = Except.error e := rfl

/-- Reduction of an `Except` functor map at an `ok` value (definitional). -/
theorem except_map_ok {ε α β : Type} (f : α → β) (a : α) :
    f <$> (Except.ok a : Except ε α) = Except.ok (f a) := rfl

/-- Reduction of an `Except` functor map at an error (definitional). -/
theorem except_map_error {ε α β : Type} (f : α → β) (e : ε) :
    f <$> (Except.error e : Except ε α) = Except.error e := rfl

/-! ## Claim theorems -/

/-- The calibration of the spec's affine-correctness test:
XZERO=0.0, XINCR=1e-9, YZERO=0.0, YMULT=2.0, YOFF=10.0. -/
def cal0 : List (String × String) :=
  [("XZERO", "0.0"), ("XINCR", "1e-09"), ("YZERO", "0.0"),
   ("YMULT", "2.0"), ("YOFF", "10.0")]

/-- C1: for any calibration mapping whose XZERO, XINCR, YZERO, YMULT, YOFF
entries parse as floats and any raw trace, `scale_data` succeeds and
returns `time[i] = XZERO + XINCR * i` and
`amplitude[i] = (raw[i] - YOFF) * YMULT + YZERO` elementwise. -/
theorem scale_data_affine (d : List (String × String)) (raw : List ℚ)
    (xz xi yz ym yo : ℚ)
    (hxz : getFloat d "XZERO" = .ok xz) (hxi : getFloat d "XINCR" = .ok xi)
    (hyz : getFloat d "YZERO" = .ok yz) (hym : getFloat d "YMULT" = .ok ym)
    (hyo : getFloat d "YOFF" = .ok yo) :
    ∃ t a, scale_data d raw = .ok (t, a) ∧
      (∀ i : ℕ, i < raw.length → t[i]? = some (xz + xi * (i : ℚ))) ∧
      (∀ (i : ℕ) (y : ℚ), raw[i]? = some y → a[i]? = some ((y - yo) * ym + yz)) := by
  refine ⟨(List.range raw.length).map (fun i : ℕ => xz + xi * (i : ℚ)),
    raw.map (fun y => (y - yo) * ym + yz), ?_, ?_, ?_⟩
  · simp only [scale_data, hxz, hxi, hyz, hym, hyo, except_bind_ok, except_bind_error, except_pure]
  · intro i hi
    simp [List.getElem?_map, List.getElem?_range hi]
  · intro i y hy
    simp [List.getElem?_map, hy]

/-- C1 witness: the spec's affine-correctness test: calibration `cal0` and
raw trace `[10, 20, 30]` give time `[0.0, 1e-9, 2e-9]` and amplitude
`[0.0, 20.0, 40.0]`. -/
theorem scale_data_affine_witness :
    ∃ t a, scale_data cal0 [10, 20, 30] = .ok (t, a) ∧
      t[0]? = some 0 ∧ t[1]? = some (1 / 1000000000) ∧
      t[2]? = some (2 / 1000000000) ∧
      a[0]? = some 0 ∧ a[1]? = some 20 ∧ a[2]? = some 40 := by
  obtain ⟨t, a, h, ht, ha⟩ := scale_data_affine cal0 [10, 20, 30]
    (PyFloatVal.val ⟨0, -1⟩) (PyFloatVal.val ⟨1, -9⟩) (PyFloatVal.val ⟨0, -1⟩)
    (PyFloatVal.val ⟨20, -1⟩) (PyFloatVal.val ⟨100, -1⟩) rfl rfl rfl rfl rfl
  refine ⟨t, a, h, ?_, ?_, ?_, ?_, ?_, ?_⟩
  · rw [ht 0 (by norm_num)]; norm_num [PyFloatVal.val]
  · rw [ht 1 (by norm_num)]; norm_num [PyFloatVal.val]
  · rw [ht 2 (by norm_num)]; norm_num [PyFloatVal.val]
  · rw [ha 0 10 (by norm_num)]; norm_num [PyFloatVal.val]
  · rw [ha 1 20 (by norm_num)]; norm_num [PyFloatVal.val]
  · rw [ha 2 30 (by norm_num)]; norm_num [PyFloatVal.val]

/-- C2: for any raw trace (the empty one included) and any calibration
mapping whose five transform keys parse as floats, `scale_data` succeeds
and both output sequences have exactly the input's length; the empty
trace yields two empty sequences. -/
theorem scale_data_total (d : List (String × String)) (raw : List ℚ)
    (xz xi yz ym yo : ℚ)
    (hxz : getFloat d "XZERO" = .ok xz) (hxi : getFloat d "XINCR" = .ok xi)
    (hyz : getFloat d "YZERO" = .ok yz) (hym : getFloat d "YMULT" = .ok ym)
    (hyo : getFloat d "YOFF" = .ok yo) :
    ∃ t a, scale_data d raw = .ok (t, a) ∧
      t.length = raw.length ∧ a.length = raw.length ∧
      (raw = [] → t = [] ∧ a = []) := by
  refine ⟨(List.range raw.length).map (fun i : ℕ => xz + xi * (i : ℚ)),
    raw.map (fun y => (y - yo) * ym + yz), ?_, ?_, ?_, ?_⟩
  · simp only [scale_data, hxz, hxi, hyz, hym, hyo, except_bind_ok, except_bind_error, except_pure]
  · simp only [List.length_map, List.length_range]
  · simp only [List.length_map]
  · intro hc; subst hc
    simp only [List.length_nil, List.range_zero, List.map_nil, and_self]

/-- C2 witness: with calibration `cal0`, the empty trace scales to two
empty sequences. -/
theorem scale_data_total_witness :
    ∃ t a, scale_data cal0 [] = .ok (t, a) ∧ t = [] ∧ a = [] := by
  obtain ⟨t, a, h, -, -, he⟩ := scale_data_total cal0 []
    (PyFloatVal.val ⟨0, -1⟩) (PyFloatVal.val ⟨1, -9⟩) (PyFloatVal.val ⟨0, -1⟩)
    (PyFloatVal.val ⟨20, -1⟩) (PyFloatVal.val ⟨100, -1⟩) rfl rfl rfl rfl rfl
  exact ⟨t, a, h, (he rfl).1, (he rfl).2⟩

/-- C5: the Scaling Engine is deterministic and side-effect free: the
statement-level run leaves the input fields of the store untouched,
returns exactly the value of the pure function `scale_data`, and two
invocations on identical inputs return identical results. -/
theorem scale_data_pure (d : List (String × String)) (raw : List ℚ) :
    (scale_data_run { scaling_dict := d, curve := raw }).1.scaling_dict = d ∧
    (scale_data_run { scaling_dict := d, curve := raw }).1.curve = raw ∧
    (scale_data_run { scaling_dict := d, curve := raw }).2 = scale_data d raw ∧
    (∀ d2 raw2, d2 = d → raw2 = raw →
      scale_data_run { scaling_dict := d2, curve := raw2 } =
        scale_data_run { scaling_dict := d, curve := raw }) := by
  refine ⟨?_, ?_, ?_, fun d2 raw2 hd hr => by rw [hd, hr]⟩ <;>
  · rcases h1 : getFloat d "XZERO" with e1 | v1 <;>
    rcases h2 : getFloat d "XINCR" with e2 | v2 <;>
    rcases h3 : getFloat d "YZERO" with e3 | v3 <;>
    rcases h4 : getFloat d "YMULT" with e4 | v4 <;>
    rcases h5 : getFloat d "YOFF" with e5 | v5 <;>
    simp [scale_data_run, stepXZero, stepXIncr, stepYZero, stepYMult, stepYOff,
      stepXPoints, stepYPoints, scale_data, h1, h2, h3, h4, h5, Except.map,
      except_bind_ok, except_bind_error, except_pure]

/-- C5 witness: a run at a concrete calibration and trace leaves the
inputs in the store untouched, and a second identical invocation returns
the identical result. -/
theorem scale_data_pure_witness :
    (scale_data_run { scaling_dict := cal0, curve := [1] }).1.scaling_dict = cal0 ∧
    scale_data_run { scaling_dict := cal0, curve := [1] } =
      scale_data_run { scaling_dict := cal0, curve := [1] } := by
  obtain ⟨h1, -, -, h4⟩ := scale_data_pure cal0 [1]
  exact ⟨h1, h4 cal0 [1] rfl rfl⟩

/-- The five calibration keys the Scaling Engine consumes, in the order
the source reads them. -/
def confKeys : List String := ["XZERO", "XINCR", "YZERO", "YMULT", "YOFF"]

theorem errNames_keyError (k : String) : errNames (.keyError k) k :=
  List.infix_refl _

theorem errNames_floatValueError (v : String) : errNames (.floatValueError v) v := by
  show v.data <:+: ("could not convert string to float: " ++ v).data
  rw [String.data_append]
  exact (List.suffix_append _ _).isInfix

/-- Inversion for a failing `getFloat`: either the key is absent (a
`KeyError` carrying the key) or its value does not parse (a `ValueError`
carrying the value text). -/
theorem getFloat_error {d : List (String × String)} {k : String} {e : PyErr}
    (h : getFloat d k = .error e) :
    (d.lookup k = none ∧ e = .keyError k) ∨
    (∃ v, d.lookup k = some v ∧ pyFloat? v = none ∧ e = .floatValueError v) := by
  rcases hl : List.lookup k d with _ | v
  · left
    refine ⟨rfl, ?_⟩
    have h2 : Except.error (PyErr.keyError k) = (Except.error e : Except PyErr ℚ) := by
      rw [← h]; unfold getFloat; rw [hl]
    injection h2 with h3
    exact h3.symm
  · rcases hp : pyFloat? v with _ | q
    · right
      refine ⟨v, rfl, hp, ?_⟩
      have h2 : Except.error (PyErr.floatValueError v) =
          (Except.error e : Except PyErr ℚ) := by
        rw [← h]; unfold getFloat; rw [hl]; simp only [hp]
      injection h2 with h3
      exact h3.symm
    · exfalso
      have h2 : Except.ok q = (Except.error e : Except PyErr ℚ) := by
        rw [← h]; unfold getFloat; rw [hl]; simp only [hp]
      exact Except.noConfusion h2

/-- The shape of any `scale_data` configuration error, tagged with the key
it arose from. -/
theorem config_error_shape {d : List (String × String)} {k : String} {e : PyErr}
    (h : getFloat d k = .error e) (hk : k ∈ confKeys) :
    (∃ k2, k2 ∈ confKeys ∧ d.lookup k2 = none ∧ e = .keyError k2 ∧ errNames e k2) ∨
    (∃ k2 v, k2 ∈ confKeys ∧ d.lookup k2 = some v ∧ pyFloat? v = none ∧
      e = .floatValueError v ∧ errNames e v) := by
  rcases getFloat_error h with ⟨hn, he⟩ | ⟨v, hs, hp, he⟩
  · subst he; exact .inl ⟨k, hk, hn, rfl, errNames_keyError k⟩
  · subst he; exact .inr ⟨k, v, hk, hs, hp, rfl, errNames_floatValueError v⟩

/-- C3 (amended): every failure of `scale_data` is decided by the
calibration mapping alone (the raw trace is never consulted), and is
either a `KeyError` naming a missing calibration key or a `ValueError`
naming the unparseable value text (not the key); when all five keys parse
there is no failure; and a mapping lacking YMULT (its other keys parsing)
fails with the `KeyError` naming YMULT. -/
theorem scale_data_config_error (d : List (String × String)) (raw raw2 : List ℚ) :
    (∀ e, scale_data d raw = .error e → scale_data d raw2 = .error e) ∧
    (∀ e, scale_data d raw = .error e →
      (∃ k, k ∈ confKeys ∧ d.lookup k = none ∧ e = .keyError k ∧ errNames e k) ∨
      (∃ k v, k ∈ confKeys ∧ d.lookup k = some v ∧ pyFloat? v = none ∧
        e = .floatValueError v ∧ errNames e v)) ∧
    (∀ xz xi yz ym yo, getFloat d "XZERO" = .ok xz → getFloat d "XINCR" = .ok xi →
      getFloat d "YZERO" = .ok yz → getFloat d "YMULT" = .ok ym →
      getFloat d "YOFF" = .ok yo → ∃ t a, scale_data d raw = .ok (t, a)) ∧
    (d.lookup "YMULT" = none →
      (∃ q, getFloat d "XZERO" = .ok q) → (∃ q, getFloat d "XINCR" = .ok q) →
      (∃ q, getFloat d "YZERO" = .ok q) →
      scale_data d raw = .error (.keyError "YMULT") ∧
      errNames (.keyError "YMULT") "YMULT") := by
  refine ⟨?_, ?_, ?_, ?_⟩
  · intro e he
    rcases h1 : getFloat d "XZERO" with e1 | v1 <;>
    rcases h2 : getFloat d "XINCR" with e2 | v2 <;>
    rcases h3 : getFloat d "YZERO" with e3 | v3 <;>
    rcases h4 : getFloat d "YMULT" with e4 | v4 <;>
    rcases h5 : getFloat d "YOFF" with e5 | v5 <;>
    simp [scale_data, h1, h2, h3, h4, h5, except_bind_ok, except_bind_error, except_pure] at he ⊢ <;>
    exact he
  · intro e he
    rcases h1 : getFloat d "XZERO" with e1 | v1
    · have hee : (Except.error e1 : Except PyErr (List ℚ × List ℚ)) = .error e := by
        rw [← he]
        simp only [scale_data, h1, except_bind_error]
      injection hee with h2
      subst h2
      exact config_error_shape h1 (by decide)
    · rcases h2 : getFloat d "XINCR" with e2 | v2
      · have hee : (Except.error e2 : Except PyErr (List ℚ × List ℚ)) = .error e := by
          rw [← he]
          simp only [scale_data, h1, h2, except_bind_ok, except_bind_error]
        injection hee with h2
        subst h2
        exact config_error_shape h2 (by decide)
      · rcases h3 : getFloat d "YZERO" with e3 | v3
        · have hee : (Except.error e3 : Except PyErr (List ℚ × List ℚ)) = .error e := by
            rw [← he]
            simp only [scale_data, h1, h2, h3, except_bind_ok, except_bind_error]
          injection hee with h2
          subst h2
          exact config_error_shape h3 (by decide)
        · rcases h4 : getFloat d "YMULT" with e4 | v4
          · have hee : (Except.error e4 : Except PyErr (List ℚ × List ℚ)) = .error e := by
              rw [← he]
              simp only [scale_data, h1, h2, h3, h4, except_bind_ok, except_bind_error]
            injection hee with h2
            subst h2
            exact config_error_shape h4 (by decide)
          · rcases h5 : getFloat d "YOFF" with e5 | v5
            · have hee : (Except.error e5 : Except PyErr (List ℚ × List ℚ)) = .error e := by
                rw [← he]
                simp only [scale_data, h1, h2, h3, h4, h5, except_bind_ok,
                  except_bind_error, except_map_error]
              injection hee with h2
              subst h2
              exact config_error_shape h5 (by decide)
            · exact absurd he (by
                simp [scale_data, h1, h2, h3, h4, h5, except_bind_ok,
                  except_map_ok, except_pure])
  · intro xz xi yz ym yo hxz hxi hyz hym hyo
    exact ⟨(List.range raw.length).map (fun i : ℕ => xz + xi * (i : ℚ)),
      raw.map (fun y => (y - yo) * ym + yz), by
      simp only [scale_data, hxz, hxi, hyz, hym, hyo, except_bind_ok, except_pure,
        except_map_ok]⟩
  · intro hym hx1 hx2 hx3
    obtain ⟨q1, h1⟩ := hx1
    obtain ⟨q2, h2⟩ := hx2
    obtain ⟨q3, h3⟩ := hx3
    have h4 : getFloat d "YMULT" = .error (.keyError "YMULT") := by
      unfold getFloat
      rw [show List.lookup "YMULT" d = none from hym]
    refine ⟨?_, errNames_keyError "YMULT"⟩
    simp [scale_data, h1, h2, h3, h4, except_bind_ok, except_bind_error]

/-- Calibration with YMULT bound to text that does not parse as a float. -/
def calBadYMult : List (String × String) :=
  [("XZERO", "0.0"), ("XINCR", "1e-09"), ("YZERO", "0.0"),
   ("YMULT", "x"), ("YOFF", "10.0")]

/-- C3 counterexample: with YMULT bound to the non-numeric text "x",
`scale_data` raises the `float()` `ValueError`, whose message names the
offending value "x" but not the key YMULT — refuting "a
ConfigurationError naming the missing/invalid key" for invalid (as
opposed to missing) values. -/
theorem scale_data_config_error_counterexample :
    scale_data calBadYMult [1] = .error (.floatValueError "x") ∧
    ¬ errNames (.floatValueError "x") "YMULT" := by
  constructor
  · decide
  · decide

/-- Calibration lacking the YMULT key, its other keys valid. -/
def calNoYMult : List (String × String) :=
  [("XZERO", "0.0"), ("XINCR", "1e-09"), ("YZERO", "0.0"), ("YOFF", "10.0")]

/-- C3 witness: a mapping lacking YMULT fails with the `KeyError` naming
YMULT. -/
theorem scale_data_config_error_witness :
    scale_data calNoYMult [1] = .error (.keyError "YMULT") ∧
    errNames (.keyError "YMULT") "YMULT" := by
  obtain ⟨-, -, -, h⟩ := scale_data_config_error calNoYMult [1] [2]
  exact h rfl ⟨PyFloatVal.val ⟨0, -1⟩, rfl⟩ ⟨PyFloatVal.val ⟨1, -9⟩, rfl⟩
    ⟨PyFloatVal.val ⟨0, -1⟩, rfl⟩

/-- C6: the loop of `read_config` parses a well-formed semicolon/space
reply into the key-to-value mapping — on the spec's example it builds
exactly the expected dict — but the function body has no `return`
statement, so `read_config` itself returns Python `None` and the mapping
is discarded (the code bug behind this claim). -/
theorem read_config_returns_none :
    read_config_pairs "NR_PT 1000;XUNIT s;XZERO 0.0;XINCR 1e-09"
      = .ok [("NR_PT", "1000"), ("XUNIT", "s"), ("XZERO", "0.0"),
             ("XINCR", "1e-09")] ∧
    read_config "NR_PT 1000;XUNIT s;XZERO 0.0;XINCR 1e-09" = .ok none := by
  constructor
  · decide
  · decide

/-- C9: `ask` appends "?" to a non-empty question exactly when it does not
already end in "?", then queries and strips the trailing newline of the
response; on the empty question it raises `IndexError` from
`question[-1]` before any query is sent (the result does not depend on
the query oracle). -/
theorem ask_question_mark (query : String → String) (s : String) :
    (s ≠ "" →
      (s.toList.getLast? = some '?' → ask query s = .ok (pyRstrip (query s))) ∧
      (s.toList.getLast? ≠ some '?' →
        ask query s = .ok (pyRstrip (query (s ++ "?"))))) ∧
    ask query "" = .error .indexError := by
  constructor
  · intro hs
    constructor
    · intro hq
      simp only [ask, ask_question, hq, ne_eq, not_true_eq_false, if_false,
        except_bind_ok, except_pure, except_map_ok]
    · intro hq
      rcases hl : s.toList.getLast? with _ | c
      · exfalso
        apply hs
        have : s.toList = [] := List.getLast?_eq_none_iff.mp hl
        have hd : s.data = [] := this
        cases s
        simp_all
      · have hc : ¬ c = '?' := fun h => hq (h ▸ hl)
        simp only [ask, ask_question, hl, ne_eq, hc, not_false_eq_true, if_true,
          except_bind_ok, except_pure, except_map_ok]
  · rfl

/-- C9 witness: "ID" (no trailing "?") is sent as "ID?" and the response
newline is stripped; "ID?" is sent unchanged; the empty question fails
with `IndexError` for any oracle. -/
theorem ask_question_mark_witness :
    ask (fun q => q ++ "!\n") "ID" = .ok "ID?!" ∧
    ask (fun q => q ++ "!\n") "ID?" = .ok "ID?!" ∧
    ask (fun q => q ++ "!\n") "" = .error .indexError := by
  refine ⟨?_, ?_, (ask_question_mark (fun q => q ++ "!\n") "").2⟩
  · rw [((ask_question_mark (fun q => q ++ "!\n") "ID").1 (by decide)).2 (by decide)]
    decide
  · rw [((ask_question_mark (fun q => q ++ "!\n") "ID?").1 (by decide)).1 (by decide)]
    decide

/-- C10: `read_scaling_config` calls `get_source_channel` as a free global
name; the module binds no such global, so every invocation fails with the
`NameError` naming `get_source_channel`, whatever the instrument replies
— no calibration query is ever issued. -/
theorem read_scaling_config_name_error (query : String → String) :
    read_scaling_config query = .error (.nameError "get_source_channel") := rfl

/-- `read_config_step` on a segment with no space: the unpack error. -/
theorem read_config_step_eq_none {p : String}
    (h : splitFirstChar ' ' p.toList = none) (d0 : List (String × String)) :
    read_config_step d0 p = .error .unpackError := by
  unfold read_config_step
  rw [h]

/-- `read_config_step` on a segment split at its first space. -/
theorem read_config_step_eq_some {p : String} {pr : List Char × List Char}
    (h : splitFirstChar ' ' p.toList = some pr) (d0 : List (String × String)) :
    read_config_step d0 p = .ok (dictInsert d0 ⟨pr.1⟩ ⟨pr.2⟩) := by
  unfold read_config_step
  rw [h]

/-- The loop of `read_config` fails with the fixed unpacking `ValueError`
as soon as any segment contains no space, whatever dict was accumulated
before (no partial mapping is returned). -/
theorem read_config_fold_error (ps : List String) (d0 : List (String × String))
    (h : ∃ p ∈ ps, ' ' ∉ p.toList) :
    ps.foldlM read_config_step d0 = .error .unpackError := by
  induction ps generalizing d0 with
  | nil => simp at h
  | cons p rest ih =>
    rw [List.foldlM_cons]
    rcases h with ⟨q, hq, hsp⟩
    rcases List.mem_cons.mp hq with rfl | hq2
    · rw [read_config_step_eq_none (splitFirstChar_of_not_mem hsp),
        except_bind_error]
    · by_cases hp : ' ' ∈ p.toList
      · rcases Option.isSome_iff_exists.mp (splitFirstChar_isSome hp) with ⟨pr, hpr⟩
        rw [read_config_step_eq_some hpr, except_bind_ok]
        exact ih _ ⟨q, hq2, hsp⟩
      · rw [read_config_step_eq_none (splitFirstChar_of_not_mem hp),
          except_bind_error]

/-- The loop of `read_config` succeeds when every segment contains a
space. -/
theorem read_config_fold_ok (ps : List String) (d0 : List (String × String))
    (h : ∀ p ∈ ps, ' ' ∈ p.toList) :
    ∃ d2, ps.foldlM read_config_step d0 = .ok d2 := by
  induction ps generalizing d0 with
  | nil => exact ⟨d0, rfl⟩
  | cons p rest ih =>
    rw [List.foldlM_cons]
    rcases Option.isSome_iff_exists.mp
      (splitFirstChar_isSome (h p (by simp))) with ⟨pr, hpr⟩
    rw [read_config_step_eq_some hpr, except_bind_ok]
    exact ih _ (fun q hq => h q (by simp [hq]))

/-- C7 (amended): a semicolon-delimited segment with no space makes
`read_config` fail — by the tuple-unpacking `ValueError`, whose message
is the fixed text "not enough values to unpack (expected 2, got 1)" and
does not identify the offending segment — with no partial mapping
returned; segments all containing a space parse successfully; and the
reply is segmented as-is, without stripping: a well-formed `KEY VAL`
reply is stored with its value text verbatim, trailing newline
included. -/
theorem read_config_malformed (config k v : String) :
    ((∃ p ∈ pySplit config ';', ' ' ∉ p.toList) →
      read_config_pairs config = .error .unpackError) ∧
    ((∀ p ∈ pySplit config ';', ' ' ∈ p.toList) →
      ∃ d2, read_config_pairs config = .ok d2) ∧
    errMessage .unpackError = "not enough values to unpack (expected 2, got 1)" ∧
    (' ' ∉ k.toList → ';' ∉ k.toList → ';' ∉ v.toList →
      read_config_pairs (k ++ " " ++ v) = .ok [(k, v)]) := by
  refine ⟨fun h => read_config_fold_error _ [] h,
    fun h => read_config_fold_ok _ [] h, rfl, ?_⟩
  intro hk hsk hsv
  have hdata : (k ++ " " ++ v).toList = k.toList ++ ' ' :: v.toList := by
    show ((k ++ " ") ++ v).data = k.data ++ ' ' :: v.data
    rw [String.data_append, String.data_append, List.append_assoc]
    rfl
  have hno : ';' ∉ (k ++ " " ++ v).toList := by
    rw [hdata]
    simp only [List.mem_append, List.mem_cons]
    rintro (h1 | h2 | h3)
    · exact hsk h1
    · exact absurd h2 (by decide)
    · exact hsv h3
  unfold read_config_pairs pySplit
  rw [splitOnChar_of_not_mem hno, hdata]
  simp only [List.map_cons, List.map_nil, List.foldlM_cons, List.foldlM_nil,
    read_config_step]
  rw [show (⟨k.toList ++ ' ' :: v.toList⟩ : String).toList
      = k.toList ++ ' ' :: v.toList from rfl,
    splitFirstChar_append _ hk]
  simp [dictInsert, except_bind_ok]

/-- C7 counterexample: a no-space segment makes `read_config` fail, but
with the fixed unpack-error message, which does not name the offending
segment "BAD"; and the reply is not stripped before segmentation — a
trailing newline survives inside the final value, where the claimed
stripping would have removed it. -/
theorem read_config_malformed_counterexample :
    read_config_pairs "NR_PT 1000;BAD" = .error .unpackError ∧
    ¬ errNames .unpackError "BAD" ∧
    read_config_pairs "XZERO 0.0;XINCR 1e-09\n"
      = .ok [("XZERO", "0.0"), ("XINCR", "1e-09\n")] ∧
    read_config_pairs "XZERO 0.0;XINCR 1e-09\n"
      ≠ .ok [("XZERO", "0.0"), ("XINCR", "1e-09")] := by
  refine ⟨by decide, by decide, by decide, by decide⟩

/-- C7 witness: a well-formed pair is stored verbatim (trailing newline
kept), and a reply with a space-free segment fails with the unpack
error. -/
theorem read_config_malformed_witness :
    read_config_pairs ("KEY" ++ " " ++ "VAL\n") = .ok [("KEY", "VAL\n")] ∧
    read_config_pairs "A 1;NOSPACE" = .error .unpackError := by
  obtain ⟨h1, -, -, h4⟩ := read_config_malformed "A 1;NOSPACE" "KEY" "VAL\n"
  exact ⟨h4 (by decide) (by decide) (by decide),
    h1 ⟨"NOSPACE", by decide, by decide⟩⟩

/-- `read_trace` on a reply `<preamble> <body>` (space-free preamble):
the preamble is discarded, the trailing newlines of the body are
stripped, and the comma-separated tokens are parsed as floats in order. -/
theorem read_trace_spec (pre body : String) (h : ' ' ∉ pre.toList) :
    read_trace (pre ++ " " ++ body)
      = (pySplit (pyRstrip body) ',').mapM parseFloatToken := by
  unfold read_trace
  have hdata : (pre ++ " " ++ body).toList = pre.toList ++ ' ' :: body.toList := by
    show ((pre ++ " ") ++ body).data = pre.data ++ ' ' :: body.data
    rw [String.data_append, String.data_append, List.append_assoc]
    rfl
  have h1 : pyRstrip (pre ++ " " ++ body)
      = ⟨pre.toList ++ ' ' :: rstripNl body.toList⟩ := by
    unfold pyRstrip
    rw [hdata, rstripNl_append_space]
  rw [h1]
  have h2 : pySplit1 (⟨pre.toList ++ ' ' :: rstripNl body.toList⟩ : String) ' '
      = [⟨pre.toList⟩, ⟨rstripNl body.toList⟩] := by
    unfold pySplit1
    rw [show (⟨pre.toList ++ ' ' :: rstripNl body.toList⟩ : String).toList
        = pre.toList ++ ' ' :: rstripNl body.toList from rfl,
      splitFirstChar_append _ h]
  rw [h2]
  rfl

/-- C8 (amended): `read_trace` splits the reply at the first space,
discards the preamble, splits the remainder on commas and parses each
token as a float; "CURVE 1,2,3,4" yields [1.0, 2.0, 3.0, 4.0]; a
non-float token makes it fail with the `ValueError` naming the token; but
an empty data block is the single empty token, which `float('')` rejects
— a `ValueError` on "", not an empty sequence. -/
theorem read_trace_parse (pre body : String) :
    (' ' ∉ pre.toList →
      read_trace (pre ++ " " ++ body)
        = (pySplit (pyRstrip body) ',').mapM parseFloatToken) ∧
    read_trace "CURVE 1,2,3,4" = .ok [1, 2, 3, 4] ∧
    (read_trace "CURVE 1,x,3" = .error (.floatValueError "x") ∧
      errNames (.floatValueError "x") "x") ∧
    read_trace "CURVE " = .error (.floatValueError "") := by
  refine ⟨read_trace_spec pre body, ?_, ⟨by decide, by decide⟩, by decide⟩
  have hv : read_trace "CURVE 1,2,3,4"
      = .ok [PyFloatVal.val ⟨1, 0⟩, PyFloatVal.val ⟨2, 0⟩,
             PyFloatVal.val ⟨3, 0⟩, PyFloatVal.val ⟨4, 0⟩] := rfl
  rw [hv]
  norm_num [PyFloatVal.val]

/-- C8 counterexample: on an empty data block (`"CURVE "`), `read_trace`
raises the `float('')` `ValueError` instead of returning the empty
sequence the claim promises. -/
theorem read_trace_empty_counterexample :
    read_trace "CURVE " = .error (.floatValueError "") ∧
    read_trace "CURVE " ≠ .ok [] := by
  refine ⟨by decide, by decide⟩

/-- C8 witness: the general decomposition applied at a concrete reply,
and the spec's positive parsing example. -/
theorem read_trace_parse_witness :
    read_trace ("CURVE" ++ " " ++ "7,8\n")
      = (pySplit (pyRstrip "7,8\n") ',').mapM parseFloatToken ∧
    read_trace "CURVE 1,2,3,4" = .ok [1, 2, 3, 4] := by
  obtain ⟨h1, h2, -, -⟩ := read_trace_parse "CURVE" "7,8\n"
  exact ⟨h1 (by decide), h2⟩

end MSO4102B
